import Mathlib

/-!
Verification development for the identity-and-session lifecycle layer
(session cleanup, session activity tracking, decrypt-retry/auto-recovery,
and session migration) of the InfiniteAPI messaging client.

The definitions below are shallow embeddings of the TypeScript source:
 * `src/Signal/session-cleanup.ts` (cleanup scheduler: `parseSessionMetadata`,
   `shouldCleanupSession`, `runCleanup`)
 * `src/Signal/session-activity-tracker.ts` (activity tracker:
   `recordActivity`, `getLastActivity`, `getAllActivities`, `flush`)
 * `src/Utils/decrypt-message-node.ts` (decryption pipeline:
   `DECRYPTION_RETRY_OPTIONS.shouldRetry`, `isCorruptedSessionError`,
   `isSessionRecordError`, `cleanupCorruptedSession`, the failure-handling
   path of `decryptMessageNode`)
 * the session migrator, which is specified (spec section 4.2) but whose
   implementation file is not part of this snapshot; it is modelled from
   the specification text and marked as such.

JavaScript truthiness is modelled explicitly wherever the source relies on
it (`0`, `''`, `null`, `undefined` are falsy).  Timestamps are `Int`
milliseconds.  String scanning is implemented over `List Char` with
structural recursion so that all statements evaluate by kernel reduction.
-/

/-! ## JavaScript string and number primitives used by the source -/

/-- Split a character list at every occurrence of the separator `c`.
Mirrors JavaScript `String.prototype.split` with a one-character
separator (`''.split(c) = ['']`, separators at the ends produce empty
pieces). -/
def splitOnChar (c : Char) : List Char → List (List Char)
  | [] => [[]]
  | x :: xs =>
    let r := splitOnChar c xs
    if x == c then [] :: r
    else
      match r with
      | [] => [[x]]
      | h :: t => (x :: h) :: t

/-- Decimal value of a digit list (most significant first). -/
def digitsVal : List Char → Nat → Nat
  | [], acc => acc
  | d :: ds, acc => digitsVal ds (acc * 10 + (d.toNat - 48))

/-- JavaScript `parseInt(s, 10)` restricted to the inputs the session-key
parser feeds it (no leading whitespace or sign, which store keys never
carry): the value of the longest leading digit run, `none` standing for
`NaN` when there is no leading digit. -/
def jsParseIntNat (s : List Char) : Option Nat :=
  let ds := s.takeWhile Char.isDigit
  if ds.isEmpty then none else some (digitsVal ds 0)

/-- JavaScript truthiness of an optional number (`undefined` and `0` are
falsy). -/
def jsTruthyInt : Option Int → Bool
  | some v => v != 0
  | none => false

/-- JavaScript truthiness of a nullable string (`null`, `undefined` and
`''` are falsy); this is the `!!pn` coercion in `parseSessionMetadata`. -/
def jsTruthyStr : Option String → Bool
  | some s => s != ""
  | none => false

/-! ## Session cleanup (src/Signal/session-cleanup.ts) -/

/-- Session cleanup configuration (interface `SessionCleanupConfig`). -/
structure SessionCleanupConfig where
  enabled : Bool
  intervalMs : Nat
  cleanupHour : Nat
  secondaryDeviceInactiveDays : Nat
  primaryDeviceInactiveDays : Nat
  lidOrphanHours : Nat
  cleanupOnStartup : Bool
  autoCleanCorrupted : Bool
deriving Repr, DecidableEq

/-- Session cleanup statistics (interface `SessionCleanupStats`).
`durationMs` is wall-clock time in the source; the model keeps the field
and pins it to 0. -/
structure SessionCleanupStats where
  totalScanned : Nat
  secondaryDevicesDeleted : Nat
  primaryDevicesDeleted : Nat
  lidOrphansDeleted : Nat
  totalDeleted : Nat
  durationMs : Nat
  errors : Nat
deriving Repr, DecidableEq

/-- Session metadata for cleanup decisions (interface `SessionMetadata`).
`lastActivityMs = none` models the `undefined` field, `hasLIDMapping`
is only set for LID records, as in the source. -/
structure SessionMetadata where
  jid : String
  isLID : Bool
  isPrimary : Bool
  lastActivityMs : Option Int
  hasLIDMapping : Option Bool
deriving Repr, DecidableEq

/-- `parseSessionMetadata(signalAddr)`: parse a signal address
`"user_domain.device"` and look up the reverse mapping for LID records.
`getPNForLID` is the LID-mapping store oracle (`lidMapping.getPNForLID`).
Returns `none` where the source returns `null` (empty user / empty
user-with-domain). -/
def parseSessionMetadata (getPNForLID : String → Option String) (signalAddr : String) :
    Option SessionMetadata :=
  let parts := splitOnChar '.' signalAddr.toList
  let userWithDomain := parts.headD []
  let deviceStr := parts[1]?
  -- `if (!userWithDomain) return null`
  if userWithDomain.isEmpty then none
  else
    let uparts := splitOnChar '_' userWithDomain
    let user := uparts.headD []
    let domainStr := uparts[1]?
    -- `if (!user) return null`
    if user.isEmpty then none
    else
      -- `parseInt(deviceStr || '0', 10)`: undefined and '' are falsy
      let devSrc := match deviceStr with
        | some s => if s.isEmpty then ['0'] else s
        | none => ['0']
      let domSrc := match domainStr with
        | some s => if s.isEmpty then ['0'] else s
        | none => ['0']
      let device := jsParseIntNat devSrc
      let domain := jsParseIntNat domSrc
      -- LID iff domain 2 or 6 (PN: 0 or 5); NaN compares false
      let isLID := domain == some 2 || domain == some 6
      let isPrimary := device == some 0
      -- `device > 0` is false for NaN
      let devSuffix : List Char := match device with
        | some d => if d > 0 then ':' :: (Nat.repr d).toList else []
        | none => []
      let jid := if isLID then String.mk (user ++ "@lid".toList)
        else String.mk (user ++ devSuffix ++ "@s.whatsapp.net".toList)
      let hasLIDMapping : Option Bool :=
        if isLID then some (jsTruthyStr (getPNForLID jid)) else none
      some { jid := jid, isLID := isLID, isPrimary := isPrimary,
             lastActivityMs := none, hasLIDMapping := hasLIDMapping }

/-- `shouldCleanupSession(metadata, now)`: the retention decision.  The
source returns `{cleanup, reason}`; the reason string is log-only and the
model keeps the boolean.  JavaScript truthiness of `lastActivityMs`
(absent or `0` count as untracked) is modelled explicitly. -/
def shouldCleanupSession (config : SessionCleanupConfig) (m : SessionMetadata) (now : Int) :
    Bool :=
  -- Rule 1: LID orphans (no PN mapping) after X hours
  if m.isLID && m.hasLIDMapping == some false then
    let thresholdMs : Int := (config.lidOrphanHours : Int) * 60 * 60 * 1000
    match m.lastActivityMs with
    | some la =>
      if la != 0 then
        -- tracked activity: strict greater-than against the threshold
        decide (now - la > thresholdMs)
      else
        -- falsy timestamp: `else` branch — no activity tracked, consider it old
        true
    | none => true
  else
    match m.lastActivityMs with
    | some la =>
      if la != 0 then
        if !m.isPrimary then
          -- Rule 2: secondary devices inactive > X days
          let thresholdMs : Int := (config.secondaryDeviceInactiveDays : Int) * 24 * 60 * 60 * 1000
          decide (now - la > thresholdMs)
        else
          -- Rule 3: primary devices inactive > Y days
          let thresholdMs : Int := (config.primaryDeviceInactiveDays : Int) * 24 * 60 * 60 * 1000
          decide (now - la > thresholdMs)
      else
        -- falsy timestamp: no rule matches — grace period
        false
    | none => false

/-- The environment a cleanup run reads: the session keys enumerated from
the store (`keys.get('session', [])`), the LID-mapping oracle, the merged
activity map (`sessionActivityTracker.getAllActivities()`), the current
time, and whether the bulk deletion transaction commits (the store's
`transaction` primitive is all-or-nothing, so a failure applies none of
the staged deletions). -/
structure CleanupEnv where
  sessionKeys : List String
  getPNForLID : String → Option String
  activity : String → Option Int
  now : Int
  deleteOk : Bool

/-- Accumulator of the per-session scan loop in `runCleanup`. -/
structure ScanAcc where
  toDelete : List String
  lidOrphansDeleted : Nat
  secondaryDevicesDeleted : Nat
  primaryDevicesDeleted : Nat
  errors : Nat
deriving Repr, DecidableEq

/-- The per-session loop of `runCleanup`: parse each key, attach the
tracked activity for its JID, apply `shouldCleanupSession`, and record
the key plus its statistics category when selected.  A key that fails to
parse increments `errors`.  The category split mirrors the source:
`metadata.isLID && !metadata.hasLIDMapping` (truthy negation) counts as a
LID orphan, otherwise non-primary counts secondary, otherwise primary. -/
def scanSessions (cfg : SessionCleanupConfig) (env : CleanupEnv) :
    List String → ScanAcc
  | [] => ⟨[], 0, 0, 0, 0⟩
  | k :: ks =>
    let rest := scanSessions cfg env ks
    match parseSessionMetadata env.getPNForLID k with
    | none => { rest with errors := rest.errors + 1 }
    | some m0 =>
      let m := { m0 with lastActivityMs := env.activity m0.jid }
      if shouldCleanupSession cfg m env.now then
        if m.isLID && !(m.hasLIDMapping == some true) then
          { rest with toDelete := k :: rest.toDelete,
                      lidOrphansDeleted := rest.lidOrphansDeleted + 1 }
        else if !m.isPrimary then
          { rest with toDelete := k :: rest.toDelete,
                      secondaryDevicesDeleted := rest.secondaryDevicesDeleted + 1 }
        else
          { rest with toDelete := k :: rest.toDelete,
                      primaryDevicesDeleted := rest.primaryDevicesDeleted + 1 }
      else rest

/-- Whether one session key is selected for deletion by the scan. -/
def sessionSelected (cfg : SessionCleanupConfig) (env : CleanupEnv) (k : String) : Bool :=
  match parseSessionMetadata env.getPNForLID k with
  | none => false
  | some m0 =>
    shouldCleanupSession cfg { m0 with lastActivityMs := env.activity m0.jid } env.now

/-- The list of session keys a cleanup run selects for deletion
(`sessionsToDelete` in `runCleanup`). -/
def cleanupSelected (cfg : SessionCleanupConfig) (env : CleanupEnv) : List String :=
  (scanSessions cfg env env.sessionKeys).toDelete

/-- Result of `runCleanup`: the returned statistics and the session keys
remaining in the store afterwards. -/
structure CleanupResult where
  stats : SessionCleanupStats
  sessionKeys : List String
deriving Repr, DecidableEq

/-- `runCleanup()`: guards (`config.enabled`, the `cleanupRunning`
re-entrancy flag), the scan, and the single atomic deletion transaction.
On transaction failure `errors` is incremented, `totalDeleted` keeps its
initial 0, and the store is untouched; on success every selected key is
removed.  `durationMs` (wall clock) is pinned to 0. -/
def runCleanup (cfg : SessionCleanupConfig) (env : CleanupEnv)
    (cleanupRunning : Bool) : CleanupResult :=
  let stats0 : SessionCleanupStats := ⟨0, 0, 0, 0, 0, 0, 0⟩
  if !cfg.enabled then ⟨stats0, env.sessionKeys⟩
  else if cleanupRunning then ⟨stats0, env.sessionKeys⟩
  else
    let acc := scanSessions cfg env env.sessionKeys
    let totalScanned := env.sessionKeys.length
    if acc.toDelete.length > 0 then
      if env.deleteOk then
        ⟨{ totalScanned := totalScanned,
           secondaryDevicesDeleted := acc.secondaryDevicesDeleted,
           primaryDevicesDeleted := acc.primaryDevicesDeleted,
           lidOrphansDeleted := acc.lidOrphansDeleted,
           totalDeleted := acc.toDelete.length,
           durationMs := 0,
           errors := acc.errors },
         env.sessionKeys.filter (fun k => !acc.toDelete.contains k)⟩
      else
        ⟨{ totalScanned := totalScanned,
           secondaryDevicesDeleted := acc.secondaryDevicesDeleted,
           primaryDevicesDeleted := acc.primaryDevicesDeleted,
           lidOrphansDeleted := acc.lidOrphansDeleted,
           totalDeleted := 0,
           durationMs := 0,
           errors := acc.errors + 1 },
         env.sessionKeys⟩
    else
      ⟨{ totalScanned := totalScanned,
         secondaryDevicesDeleted := acc.secondaryDevicesDeleted,
         primaryDevicesDeleted := acc.primaryDevicesDeleted,
         lidOrphansDeleted := acc.lidOrphansDeleted,
         totalDeleted := 0,
         durationMs := 0,
         errors := acc.errors },
       env.sessionKeys⟩

/-- The test configuration of `session-cleanup.test.ts`. -/
def testCleanupConfig : SessionCleanupConfig :=
  ⟨true, 86400000, 3, 15, 30, 24, false, false⟩

/-! ## Session activity tracker (src/Signal/session-activity-tracker.ts) -/

/-- Session activity metadata stored in the key store
(interface `SessionActivityMetadata`). -/
structure SessionActivityMetadata where
  lastActivityAt : Nat
  createdAt : Option Nat
deriving Repr, DecidableEq

/-- Insertion-ordered JavaScript `Map.set`: overwrite the first binding of
the key in place, else append. -/
def mapSet (k : String) (v : Nat) : List (String × Nat) → List (String × Nat)
  | [] => [(k, v)]
  | (k2, v2) :: rest =>
    if k2 == k then (k2, v) :: rest else (k2, v2) :: mapSet k v rest

/-- JavaScript `Map.get` (first binding wins, as `mapSet` keeps keys
unique). -/
def mapGet (k : String) : List (String × Nat) → Option Nat
  | [] => none
  | (k2, v) :: rest => if k2 == k then some v else mapGet k rest

/-- The tracker's mutable state: the in-memory `activityCache`, the
`isDirty` flag, and the statistic counters the source mutates
(`lastFlushAt`/`lastFlushDuration` are wall-clock readings and are
omitted). -/
structure TrackerState where
  activityCache : List (String × Nat)
  isDirty : Bool
  totalUpdates : Nat
  totalFlushes : Nat
  cacheSize : Nat
deriving Repr, DecidableEq

/-- Look a key up in the persistent `session-activity` namespace. -/
def storeGet (k : String) : List (String × SessionActivityMetadata) →
    Option SessionActivityMetadata
  | [] => none
  | (k2, v) :: rest => if k2 == k then some v else storeGet k rest

/-- One `keys.set` entry: overwrite the record at a key (append when the
key is new). -/
def storeSet (k : String) (v : SessionActivityMetadata) :
    List (String × SessionActivityMetadata) → List (String × SessionActivityMetadata)
  | [] => [(k, v)]
  | (k2, v2) :: rest =>
    if k2 == k then (k2, v) :: rest else (k2, v2) :: storeSet k v rest

/-- The batch the flush transaction writes: one
`session-activity:{jid} ↦ {lastActivityAt, createdAt}` record per cached
entry, applied in iteration order. -/
def flushUpdates (cache : List (String × Nat)) (ps : List (String × SessionActivityMetadata)) :
    List (String × SessionActivityMetadata) :=
  match cache with
  | [] => ps
  | (jid, ts) :: rest =>
    flushUpdates rest (storeSet ("session-activity:" ++ jid) ⟨ts, some ts⟩ ps)

/-- `recordActivity(jid)`: in-memory only; disabled tracking returns
before touching any state.  `now` stands for the `Date.now()` reading. -/
def recordActivity (enabled : Bool) (st : TrackerState) (jid : String) (now : Nat) :
    TrackerState :=
  if !enabled then st
  else
    let cache := mapSet jid now st.activityCache
    { st with activityCache := cache, isDirty := true,
              totalUpdates := st.totalUpdates + 1, cacheSize := cache.length }

/-- `getLastActivity(jid)`: disabled tracking yields `undefined`; else the
cache is consulted first (a cached `0` is falsy and falls through to the
store, mirroring `if (cached) return cached`), then the persistent
record's `lastActivityAt`. -/
def getLastActivity (enabled : Bool) (st : TrackerState)
    (ps : List (String × SessionActivityMetadata)) (jid : String) : Option Nat :=
  if !enabled then none
  else
    match mapGet jid st.activityCache with
    | some cached =>
      if cached != 0 then some cached
      else (storeGet ("session-activity:" ++ jid) ps).map (·.lastActivityAt)
    | none => (storeGet ("session-activity:" ++ jid) ps).map (·.lastActivityAt)

/-- Character-list version of `String.startsWith`. -/
def charsStart : List Char → List Char → Bool
  | [], _ => true
  | _ :: _, [] => false
  | a :: ps, b :: ls => a == b && charsStart ps ls

/-- The persisted half of `getAllActivities`: keep records whose key
starts with `session-activity:`, strip that namespace (the source uses
`key.replace('session-activity:', '')`; on a key that starts with the
pattern, the first occurrence is the leading one) and drop records with a
falsy `lastActivityAt` (`if (metadata?.lastActivityAt)`). -/
def diskActivities : List (String × SessionActivityMetadata) → List (String × Nat)
  | [] => []
  | (k, v) :: rest =>
    if charsStart "session-activity:".toList k.toList then
      let jid := String.mk (k.toList.drop 17)
      if v.lastActivityAt != 0 then (jid, v.lastActivityAt) :: diskActivities rest
      else diskActivities rest
    else diskActivities rest

/-- `getAllActivities()`: disabled tracking yields the empty map; else all
persisted records with a truthy `lastActivityAt` (a stored `0` is
filtered by `if (metadata?.lastActivityAt)`), overwritten by the
in-memory cache entries (the cache is more recent). -/
def getAllActivities (enabled : Bool) (st : TrackerState)
    (ps : List (String × SessionActivityMetadata)) : List (String × Nat) :=
  if !enabled then []
  else
    let fromDisk := diskActivities ps
    st.activityCache.foldl (fun acc e => mapSet e.1 e.2 acc) fromDisk

/-- `flush()`: a no-op when tracking is disabled, nothing is dirty, or the
cache is empty; otherwise the whole cache is written in one transaction
(`commitOk` models whether that transaction commits).  On success the
dirty flag clears and the cache empties; on failure every buffered entry
and the store are left untouched for the next flush. -/
def flush (enabled : Bool) (st : TrackerState)
    (ps : List (String × SessionActivityMetadata)) (commitOk : Bool) :
    TrackerState × List (String × SessionActivityMetadata) :=
  if !enabled || !st.isDirty || st.activityCache.length == 0 then (st, ps)
  else if commitOk then
    ({ st with isDirty := false, totalFlushes := st.totalFlushes + 1,
               activityCache := [], cacheSize := 0 },
     flushUpdates st.activityCache ps)
  else (st, ps)

/-! ## Decryption pipeline (src/Utils/decrypt-message-node.ts) -/

/-- Character-list substring test. -/
def charsSub (p : List Char) : List Char → Bool
  | [] => charsStart p []
  | b :: ls => charsStart p (b :: ls) || charsSub p ls

/-- JavaScript `s.includes(pat)`. -/
def strHas (s pat : String) : Bool := charsSub pat.toList s.toList

/-- JavaScript `s.endsWith(pat)`. -/
def strEnds (s pat : String) : Bool := charsStart pat.toList.reverse s.toList.reverse

/-- `MISSING_KEYS_ERROR_TEXT`. -/
def MISSING_KEYS_ERROR_TEXT : String := "Key used already or never filled"

/-- `DECRYPTION_RETRY_CONFIG.sessionRecordErrors`. -/
def sessionRecordErrors : List String :=
  ["No session record", "SessionError: No session record"]

/-- `DECRYPTION_RETRY_CONFIG.corruptedSessionErrors`. -/
def corruptedSessionErrors : List String :=
  ["Bad MAC", "MessageCounterError", MISSING_KEYS_ERROR_TEXT]

/-- `isSessionRecordError(error)`: does the error message contain one of
the missing-session-record patterns. -/
def isSessionRecordError (errorMsg : String) : Bool :=
  sessionRecordErrors.any (fun pat => strHas errorMsg pat)

/-- `isCorruptedSessionError(error)`: does the error message contain one
of the corrupted-session patterns (Bad MAC, MessageCounterError, key
already used). -/
def isCorruptedSessionError (errorMsg : String) : Bool :=
  corruptedSessionErrors.any (fun pat => strHas errorMsg pat)

/-- `DECRYPTION_RETRY_OPTIONS.maxAttempts`. -/
def DECRYPTION_RETRY_OPTIONS_maxAttempts : Nat := 3

/-- `DECRYPTION_RETRY_OPTIONS.baseDelay` (ms). -/
def DECRYPTION_RETRY_OPTIONS_baseDelay : Nat := 200

/-- `DECRYPTION_RETRY_OPTIONS.maxDelay` (ms). -/
def DECRYPTION_RETRY_OPTIONS_maxDelay : Nat := 2000

/-- `DECRYPTION_RETRY_OPTIONS.backoffMultiplier`. -/
def DECRYPTION_RETRY_OPTIONS_backoffMultiplier : Nat := 2

/-- `DECRYPTION_RETRY_OPTIONS.shouldRetry(error, attempt)`: session-record
errors retry while `attempt < 3`, corrupted-session errors never retry,
anything else retries while `attempt < 2`.  The two guards are literally
the `DECRYPTION_RETRY_CONFIG.…some(err => errorMsg.includes(err))` scans,
shared here with the named predicates. -/
def shouldRetry (errorMsg : String) (attempt : Nat) : Bool :=
  if isSessionRecordError errorMsg then attempt < 3
  else if isCorruptedSessionError errorMsg then false
  else attempt < 2

/-- Modelled from the spec: nominal delay slept before the retry that
follows attempt `i` — exponential backoff
`min(baseDelay * backoffMultiplier^(i-1), maxDelay)` per spec section 4.5
and the `DECRYPTION_RETRY_OPTIONS` constants; the configured 20% jitter
perturbs only the sleep length, not the control flow, and is omitted. -/
def retryDelay (i : Nat) : Nat :=
  min (DECRYPTION_RETRY_OPTIONS_baseDelay * DECRYPTION_RETRY_OPTIONS_backoffMultiplier ^ (i - 1))
    DECRYPTION_RETRY_OPTIONS_maxDelay

deriving instance DecidableEq for Except

/-- Outcome of the bounded-retry driver: the settled result, the number of
attempts performed, and the backoff delays slept between attempts. -/
structure RetryResult where
  result : Except String Nat
  attempts : Nat
  delays : List Nat
deriving Repr, DecidableEq

/-- Modelled from the spec: the generic retry driver (`retry` of
`Utils/retry-utils`, not part of this snapshot).  Per spec section 4.5 it
performs the operation, and after a failure consults
`shouldRetry(error, attempt)` and goes again while attempts remain,
sleeping the backoff delay in between; the error that stops the loop is
surfaced to the caller.  `op n` is the outcome of the n-th cipher call
(ciphertext buffers are opaque `Nat`s); `fuel` is the number of attempts
still allowed after the current one. -/
def runRetryFrom (op : Nat → Except String Nat) (i : Nat) : Nat → RetryResult
  | 0 =>
    match op i with
    | .ok v => ⟨.ok v, i, []⟩
    | .error e => ⟨.error e, i, []⟩
  | fuel + 1 =>
    match op i with
    | .ok v => ⟨.ok v, i, []⟩
    | .error e =>
      if shouldRetry e i then
        let r := runRetryFrom op (i + 1) fuel
        ⟨r.result, r.attempts, retryDelay i :: r.delays⟩
      else ⟨.error e, i, []⟩

/-- `retry(op, DECRYPTION_RETRY_OPTIONS)`: run from attempt 1 with
`maxAttempts` total attempts. -/
def retryRun (op : Nat → Except String Nat) : RetryResult :=
  runRetryFrom op 1 (DECRYPTION_RETRY_OPTIONS_maxAttempts - 1)

/-- Modelled from the spec: `jidDecode` lives in the WABinary module,
which is not part of this snapshot.  Per the JID formats documented in
`cleanupCorruptedSession` and spec section 6, a JID is
`user[:device]@server`; the part before the first `@` splits at `:` into
user and optional numeric device (an empty or non-numeric device piece is
`undefined`).  The server component is unused by the embedded slice and
not returned. -/
def jidDecode (jid : String) : Option (String × Option Nat) :=
  match splitOnChar '@' jid.toList with
  | [] => none
  | [_] => none
  | userCombined :: _ =>
    let uparts := splitOnChar ':' userCombined
    let user := String.mk (uparts.headD [])
    let device := (uparts[1]?).bind
      (fun d => if d.isEmpty then none else jsParseIntNat d)
    some (user, device)

/-- The replacement-session domain chosen by `cleanupCorruptedSession`
(handles plain and hosted PN/LID JIDs). -/
def sessionResetDomain (jid : String) : String :=
  let isLID := strEnds jid "@lid" || strEnds jid "@hosted.lid"
  let isHosted := strHas jid "@hosted"
  if isLID then (if isHosted then "hosted.lid" else "lid")
  else (if isHosted then "hosted" else "s.whatsapp.net")

/-- `cleanupCorruptedSession(jid)`: the list of JIDs whose session records
are deleted (via `repository.deleteSession`) — the primary device, the
common secondary device window 1–5, and the decoded device itself when it
exceeds 5.  An undecodable or user-less JID deletes nothing. -/
def cleanupCorruptedSession (jid : String) : List String :=
  match jidDecode jid with
  | none => []
  | some (user, device) =>
    if user == "" then []
    else
      let domain := sessionResetDomain jid
      let base := user ++ "@" ++ domain
      let secondaries := (List.range 5).map
        (fun i => user ++ ":" ++ Nat.repr (i + 1) ++ "@" ++ domain)
      let extra := match device with
        | some d => if d > 5 then [user ++ ":" ++ Nat.repr d ++ "@" ++ domain] else []
        | none => []
      base :: (secondaries ++ extra)

/-- `proto.WebMessageInfo.StubType.CIPHERTEXT` (value 1 in WAProto). -/
def CIPHERTEXT : Nat := 1

/-- Result of processing one `enc` child of a message node. -/
structure DecryptOutcome where
  plaintext : Option Nat
  stubType : Option Nat
  stubParams : List String
  deletedJids : List String
  cipherCalls : Nat
  retryDelays : List Nat
deriving Repr, DecidableEq

/-- The `msg`/`pkmsg` branch of `decryptMessageNode`'s `decrypt()` for one
`enc` node: the cipher call is wrapped in `retry` with
`DECRYPTION_RETRY_OPTIONS`; on success the buffer is the message, and on
failure the catch block classifies the settled error, deletes the
corrupted session's device range when `autoCleanCorrupted` is on, and
reports the message as a `CIPHERTEXT` stub whose parameter is the error
message (`[String(originalError?.message ?? originalError)]`). -/
def processEncMsg (cipher : Nat → Except String Nat) (decryptionJid : String)
    (autoCleanCorrupted : Bool) : DecryptOutcome :=
  let r := retryRun cipher
  match r.result with
  | .ok buf => ⟨some buf, none, [], [], r.attempts, r.delays⟩
  | .error e =>
    let deleted :=
      if isCorruptedSessionError e then
        if autoCleanCorrupted then cleanupCorruptedSession decryptionJid else []
      else []
    ⟨none, some CIPHERTEXT, [e], deleted, r.attempts, r.delays⟩

/-! ## Session migrator (spec section 4.2; implementation not in this snapshot) -/

/-- Modelled from the spec: the session migrator's state for one
(phone-number, long-lived-id) identity pair — the only keys
`migrateSessions(pn, lid)` touches: the known device list of the source
user, the per-device session records in each keyspace (records are opaque
`Nat`s), and the migration-ledger completion times. -/
structure MigState where
  deviceList : List Nat
  pnSessions : List (Nat × Nat)
  lidSessions : List (Nat × Nat)
  ledger : List (Nat × Int)
deriving Repr, DecidableEq

/-- The migration ledger's bounded grace period: 7 days (spec section 3). -/
def MIGRATION_LEDGER_GRACE_MS : Int := 7 * 24 * 60 * 60 * 1000

/-- The result of `migrateSessions`. -/
structure MigrationResult where
  migrated : Nat
  skipped : Nat
  total : Nat
deriving Repr, DecidableEq

/-- What the migration algorithm decides for one device. -/
inductive DeviceAction where
  | skippedLedger
  | skippedNoSession
  | migrate (record : Nat)
deriving Repr, DecidableEq

/-- Modelled from the spec: steps 3–4 of `migrateSessions` — an unexpired
ledger entry skips the device without touching the store; otherwise an
absent phone-number record skips it (nothing to migrate); otherwise the
record is staged for relocation. -/
def classifyDevice (s : MigState) (now : Int) (d : Nat) : DeviceAction :=
  match s.ledger.lookup d with
  | some t =>
    if now - t < MIGRATION_LEDGER_GRACE_MS then .skippedLedger
    else
      match s.pnSessions.lookup d with
      | some r => .migrate r
      | none => .skippedNoSession
  | none =>
    match s.pnSessions.lookup d with
    | some r => .migrate r
    | none => .skippedNoSession

/-- The staged relocations (device, record) of one migration call. -/
def migratedDevices (s : MigState) (now : Int) : List (Nat × Nat) :=
  s.deviceList.filterMap (fun d =>
    match classifyDevice s now d with
    | .migrate r => some (d, r)
    | _ => none)

/-- Modelled from the spec: `migrateSessions(pn, lid)` (spec section 4.2).
The direction guard is captured by the typed state (phone-number source,
long-lived-id target).  All staged writes (long-lived-id key gets the
record, overwriting any prior value) and deletions (phone-number key) are
applied in one transaction together with the new ledger entries; `commitOk`
models whether that transaction commits — on failure nothing is applied
and no result is produced.  `skipped` counts both ledger-skipped and
nothing-to-migrate devices; `total` is the device-list length (empty list:
a no-op with `total = 0`). -/
def migrateSessions (s : MigState) (now : Int) (commitOk : Bool) :
    Option (MigrationResult × MigState) :=
  let staged := migratedDevices s now
  if commitOk then
    some (⟨staged.length, s.deviceList.length - staged.length, s.deviceList.length⟩,
      { s with
        pnSessions := s.pnSessions.filter (fun e => !(staged.map Prod.fst).contains e.1),
        lidSessions :=
          staged ++ s.lidSessions.filter (fun e => !(staged.map Prod.fst).contains e.1),
        ledger := staged.map (fun e => (e.1, now)) ++ s.ledger })
  else none

/-! ## Theorems -/

-- corrupted error: single cipher call, stub, device range deleted
example :
    processEncMsg (fun _ => .error "Bad MAC") "123@s.whatsapp.net" true
    = ⟨none, some 1, ["Bad MAC"],
       ["123@s.whatsapp.net", "123:1@s.whatsapp.net", "123:2@s.whatsapp.net",
        "123:3@s.whatsapp.net", "123:4@s.whatsapp.net", "123:5@s.whatsapp.net"],
       1, []⟩ := by decide

-- missing-session-record error: three attempts, exponential delays
example :
    processEncMsg (fun _ => .error "No session record") "123@s.whatsapp.net" true
    = ⟨none, some 1, ["No session record"], [], 3, [200, 400]⟩ := by decide

-- device > 5 in the JID is included in the reset range
example :
    (processEncMsg (fun _ => .error "Bad MAC") "123:7@lid" true).deletedJids
    = ["123@lid", "123:1@lid", "123:2@lid", "123:3@lid", "123:4@lid",
       "123:5@lid", "123:7@lid"] := by decide

-- spec scenario: two devices `[0,5]`, both migrate in one commit
example :
    migrateSessions ⟨[0, 5], [(0, 10), (5, 11)], [], []⟩ 1000 true
    = some (⟨2, 0, 2⟩, ⟨[0, 5], [], [(0, 10), (5, 11)], [(0, 1000), (5, 1000)]⟩) := by
  decide

example :
    shouldCleanupSession testCleanupConfig
      ⟨"123456789@lid", true, true, some 1, some false⟩
      (1 + 25 * 3600000) = true := by decide

example :
    shouldCleanupSession testCleanupConfig
      ⟨"123456789@lid", true, true, some 1, some false⟩
      (1 + 23 * 3600000) = false := by decide

-- `should delete LID orphan after 24h of inactivity`
example :
    runCleanup testCleanupConfig
      ⟨["123456789_2.0"], fun _ => none,
        fun j => if j = "123456789@lid" then some 1 else none,
        1 + 25 * 3600000, true⟩ false
    = ⟨⟨1, 0, 0, 1, 1, 0, 0⟩, []⟩ := by decide

-- `should NOT delete LID orphan before 24h`
example :
    (runCleanup testCleanupConfig
      ⟨["123456789_2.0"], fun _ => none,
        fun j => if j = "123456789@lid" then some 1 else none,
        1 + 23 * 3600000, true⟩ false).stats.totalDeleted = 0 := by decide

-- `should delete secondary device (Web/Desktop) after 15 days`
example :
    (runCleanup testCleanupConfig
      ⟨["5511999999999_0.1"], fun _ => none,
        fun j => if j = "5511999999999:1@s.whatsapp.net" then some 1 else none,
        1 + 16 * 86400000, true⟩ false).stats.secondaryDevicesDeleted = 1 := by decide

-- `should delete primary device after 30 days`
example :
    (runCleanup testCleanupConfig
      ⟨["5511999999999_0.0"], fun _ => none,
        fun j => if j = "5511999999999@s.whatsapp.net" then some 1 else none,
        1 + 31 * 86400000, true⟩ false).stats.primaryDevicesDeleted = 1 := by decide

-- `should handle exactly 24h for LID orphan (boundary)`: retained
example :
    (runCleanup testCleanupConfig
      ⟨["123456789_2.0"], fun _ => none,
        fun j => if j = "123456789@lid" then some 1 else none,
        1 + 24 * 3600000, true⟩ false).stats.lidOrphansDeleted = 0 := by decide

/-- The scan selects exactly the keys `sessionSelected` accepts, in
store order. -/
theorem scanSessions_toDelete (cfg : SessionCleanupConfig) (env : CleanupEnv)
    (l : List String) :
    (scanSessions cfg env l).toDelete = l.filter (sessionSelected cfg env) := by
  induction l with
  | nil => rfl
  | cons k ks ih =>
    simp only [scanSessions, List.filter, sessionSelected]
    cases h : parseSessionMetadata env.getPNForLID k with
    | none => simpa using ih
    | some m0 =>
      by_cases hc :
          shouldCleanupSession cfg { m0 with lastActivityMs := env.activity m0.jid } env.now
      · simp only [hc, if_true]
        split <;> (try split) <;> simp [ih]
      · simp [hc, ih]

/-- Every key selected by the scan increments exactly one of the three
per-category deletion counters. -/
theorem scanSessions_count_split (cfg : SessionCleanupConfig) (env : CleanupEnv)
    (l : List String) :
    (scanSessions cfg env l).lidOrphansDeleted
      + (scanSessions cfg env l).secondaryDevicesDeleted
      + (scanSessions cfg env l).primaryDevicesDeleted
      = (scanSessions cfg env l).toDelete.length := by
  induction l with
  | nil => rfl
  | cons k ks ih =>
    simp only [scanSessions]
    cases h : parseSessionMetadata env.getPNForLID k with
    | none => simpa using ih
    | some m0 =>
      by_cases hc :
          shouldCleanupSession cfg { m0 with lastActivityMs := env.activity m0.jid } env.now
      · simp only [hc, if_true]
        split
        · simp only [List.length_cons]; omega
        · split
          · simp only [List.length_cons]; omega
          · simp only [List.length_cons]; omega
      · simp [hc, ih]

/-- A cleanup run never selects more keys than it scans. -/
theorem cleanupSelected_length_le (cfg : SessionCleanupConfig) (env : CleanupEnv) :
    (cleanupSelected cfg env).length ≤ env.sessionKeys.length := by
  rw [cleanupSelected, scanSessions_toDelete]
  exact List.length_filter_le _ _

/-- **C5.** For every session record with a tracked last-activity timestamp
(present and truthy — the code's own notion of "tracked": absent and zero
timestamps alike take the untracked branches), the cleanup decision is a
strict greater-than comparison of the inactive duration against the
record's tier threshold: a duration exactly equal to the threshold is
retained, any excess selects the record, for all three tiers (orphan
hours, secondary-device days, primary-device days). -/
theorem shouldCleanup_strict_threshold (cfg : SessionCleanupConfig)
    (m : SessionMetadata) (now la : Int)
    (hla : m.lastActivityMs = some la) (hnz : la ≠ 0) :
    shouldCleanupSession cfg m now =
      decide (now - la >
        (if m.isLID && m.hasLIDMapping == some false then
          (cfg.lidOrphanHours : Int) * 60 * 60 * 1000
         else if !m.isPrimary then
          (cfg.secondaryDeviceInactiveDays : Int) * 24 * 60 * 60 * 1000
         else (cfg.primaryDeviceInactiveDays : Int) * 24 * 60 * 60 * 1000)) := by
  have hb : (la != 0) = true := by simpa using hnz
  unfold shouldCleanupSession
  rw [hla]
  by_cases h1 : m.isLID && m.hasLIDMapping == some false
  · simp [h1, hb]
  · by_cases h2 : m.isPrimary
    · simp [h1, h2, hb]
    · simp [h1, h2, hb]

/-- Witness for C5: the 24-hour boundary case of the orphan tier —
inactivity of exactly the threshold is retained. -/
theorem shouldCleanup_strict_threshold_witness :
    shouldCleanupSession testCleanupConfig
      ⟨"123456789@lid", true, true, some 1, some false⟩ (1 + 24 * 3600000) = false := by
  rw [shouldCleanup_strict_threshold testCleanupConfig
    ⟨"123456789@lid", true, true, some 1, some false⟩ (1 + 24 * 3600000) 1 rfl
    (by decide)]
  decide

/-- **C4.** On a cleanup run, an orphaned long-lived-id record (no reverse
phone-number mapping) with no activity record at all is selected for
deletion on the first eligible run, whereas an addressable (non-orphan)
record — a phone-number record of either device role, or a long-lived-id
record with a live mapping — with no activity record is never selected
(grace period). -/
theorem cleanup_no_activity_selection (cfg : SessionCleanupConfig) (env : CleanupEnv)
    (k : String) (m0 : SessionMetadata)
    (hp : parseSessionMetadata env.getPNForLID k = some m0)
    (hk : k ∈ env.sessionKeys)
    (ha : env.activity m0.jid = none) :
    (m0.isLID = true → m0.hasLIDMapping = some false → k ∈ cleanupSelected cfg env)
    ∧ ((m0.isLID = false ∨ m0.hasLIDMapping = some true) → k ∉ cleanupSelected cfg env) := by
  have hsel : sessionSelected cfg env k =
      shouldCleanupSession cfg { m0 with lastActivityMs := none } env.now := by
    simp [sessionSelected, hp, ha]
  constructor
  · intro h1 h2
    rw [cleanupSelected, scanSessions_toDelete, List.mem_filter]
    exact ⟨hk, by rw [hsel]; simp [shouldCleanupSession, h1, h2]⟩
  · rintro h hmem
    rw [cleanupSelected, scanSessions_toDelete, List.mem_filter] at hmem
    rw [hsel] at hmem
    rcases h with h | h
    · simp [shouldCleanupSession, h] at hmem
    · simp [shouldCleanupSession, h] at hmem

/-- Witness for C4: a LID orphan with no tracked activity is selected while
a PN secondary device with no tracked activity is not, in the same run. -/
theorem cleanup_no_activity_selection_witness :
    "123456789_2.0" ∈ cleanupSelected testCleanupConfig
      ⟨["123456789_2.0", "5511999999999_0.1"], fun _ => none, fun _ => none, 1000, true⟩
    ∧ "5511999999999_0.1" ∉ cleanupSelected testCleanupConfig
      ⟨["123456789_2.0", "5511999999999_0.1"], fun _ => none, fun _ => none, 1000, true⟩ := by
  constructor
  · exact (cleanup_no_activity_selection testCleanupConfig
      ⟨["123456789_2.0", "5511999999999_0.1"], fun _ => none, fun _ => none, 1000, true⟩
      "123456789_2.0" ⟨"123456789@lid", true, true, none, some false⟩
      (by decide) (by decide) rfl).1 rfl rfl
  · exact (cleanup_no_activity_selection testCleanupConfig
      ⟨["123456789_2.0", "5511999999999_0.1"], fun _ => none, fun _ => none, 1000, true⟩
      "5511999999999_0.1" ⟨"5511999999999:1@s.whatsapp.net", false, false, none, none⟩
      (by decide) (by decide) rfl).2 (Or.inl rfl)

/-- **C1** counterexample: a long-lived-id session record whose reverse
phone-number mapping is live is nevertheless selected and deleted by
`runCleanup` once its tracked activity is older than the primary-device
threshold — the record `123456789_2.0` maps to a PN, has activity 31 days
old, and is deleted, so "never selects the record for deletion, no matter
how old its last-activity timestamp is" fails on the code. -/
theorem mapped_lid_record_deleted :
    (parseSessionMetadata
        (fun j => if j = "123456789@lid" then some "5511999999999@s.whatsapp.net" else none)
        "123456789_2.0").map (fun m => (m.isLID, m.hasLIDMapping))
      = some (true, some true)
    ∧ cleanupSelected testCleanupConfig
        ⟨["123456789_2.0"],
         fun j => if j = "123456789@lid" then some "5511999999999@s.whatsapp.net" else none,
         fun j => if j = "123456789@lid" then some 1 else none,
         1 + 31 * 86400000, true⟩ = ["123456789_2.0"]
    ∧ (runCleanup testCleanupConfig
        ⟨["123456789_2.0"],
         fun j => if j = "123456789@lid" then some "5511999999999@s.whatsapp.net" else none,
         fun j => if j = "123456789@lid" then some 1 else none,
         1 + 31 * 86400000, true⟩ false).sessionKeys = []
    ∧ (runCleanup testCleanupConfig
        ⟨["123456789_2.0"],
         fun j => if j = "123456789@lid" then some "5511999999999@s.whatsapp.net" else none,
         fun j => if j = "123456789@lid" then some 1 else none,
         1 + 31 * 86400000, true⟩ false).stats.primaryDevicesDeleted = 1 := by
  refine ⟨by decide, by decide, by decide, by decide⟩

/-- **C1** (amended). A session record in the long-lived-id keyspace with a
live reverse phone-number mapping is never selected by the orphan rule and
never selected while its activity is untracked; it remains subject to the
ordinary device-inactivity rules, so `runCleanup` selects it exactly when
its tracked (truthy) last activity is older than the secondary- or
primary-device threshold for its device role. -/
theorem mapped_lid_selected_iff_device_rule (cfg : SessionCleanupConfig)
    (env : CleanupEnv) (k : String) (m0 : SessionMetadata)
    (hp : parseSessionMetadata env.getPNForLID k = some m0)
    (hl : m0.isLID = true) (hm : m0.hasLIDMapping = some true) :
    k ∈ cleanupSelected cfg env ↔
      (k ∈ env.sessionKeys ∧ ∃ la, env.activity m0.jid = some la ∧ la ≠ 0 ∧
        env.now - la >
          (if !m0.isPrimary then
            (cfg.secondaryDeviceInactiveDays : Int) * 24 * 60 * 60 * 1000
           else (cfg.primaryDeviceInactiveDays : Int) * 24 * 60 * 60 * 1000)) := by
  rw [cleanupSelected, scanSessions_toDelete, List.mem_filter]
  have hsel : sessionSelected cfg env k =
      shouldCleanupSession cfg { m0 with lastActivityMs := env.activity m0.jid } env.now := by
    simp [sessionSelected, hp]
  rw [hsel]
  cases hact : env.activity m0.jid with
  | none => simp [shouldCleanupSession, hl, hm, hact]
  | some la =>
    by_cases hz : la = 0
    · subst hz
      simp [shouldCleanupSession, hl, hm, hact]
    · have hb : (la != 0) = true := by simpa using hz
      by_cases hpm : m0.isPrimary <;>
        simp [shouldCleanupSession, hl, hm, hact, hb, hpm, hz]

/-- Witness for the amended C1: a mapped LID secondary-device record with
activity 16 days old is selected (device rule), and the same record with
untracked activity is not. -/
theorem mapped_lid_selected_iff_device_rule_witness :
    "123456789_2.1" ∈ cleanupSelected testCleanupConfig
      ⟨["123456789_2.1"],
       fun j => if j = "123456789@lid" then some "5511999999999@s.whatsapp.net" else none,
       fun j => if j = "123456789@lid" then some 1 else none,
       1 + 16 * 86400000, true⟩
    ∧ "123456789_2.1" ∉ cleanupSelected testCleanupConfig
      ⟨["123456789_2.1"],
       fun j => if j = "123456789@lid" then some "5511999999999@s.whatsapp.net" else none,
       fun _ => none, 1 + 16 * 86400000, true⟩ := by
  constructor
  · exact (mapped_lid_selected_iff_device_rule testCleanupConfig
      ⟨["123456789_2.1"],
       fun j => if j = "123456789@lid" then some "5511999999999@s.whatsapp.net" else none,
       fun j => if j = "123456789@lid" then some 1 else none,
       1 + 16 * 86400000, true⟩
      "123456789_2.1" ⟨"123456789@lid", true, false, none, some true⟩
      (by decide) rfl rfl).mpr
      ⟨by decide, 1, by decide, by decide, by decide⟩
  · intro hmem
    have h := (mapped_lid_selected_iff_device_rule testCleanupConfig
      ⟨["123456789_2.1"],
       fun j => if j = "123456789@lid" then some "5511999999999@s.whatsapp.net" else none,
       fun _ => none, 1 + 16 * 86400000, true⟩
      "123456789_2.1" ⟨"123456789@lid", true, false, none, some true⟩
      (by decide) rfl rfl).mp hmem
    rcases h with ⟨-, la, hla, -, -⟩
    simp at hla

/-- Unfolding of an enabled, non-reentrant `runCleanup` with a non-empty
selection: the success branch. -/
theorem runCleanup_eq_deleteOk (cfg : SessionCleanupConfig) (env : CleanupEnv)
    (hen : cfg.enabled = true)
    (hlen : 0 < (scanSessions cfg env env.sessionKeys).toDelete.length)
    (hok : env.deleteOk = true) :
    runCleanup cfg env false =
      ⟨{ totalScanned := env.sessionKeys.length,
         secondaryDevicesDeleted := (scanSessions cfg env env.sessionKeys).secondaryDevicesDeleted,
         primaryDevicesDeleted := (scanSessions cfg env env.sessionKeys).primaryDevicesDeleted,
         lidOrphansDeleted := (scanSessions cfg env env.sessionKeys).lidOrphansDeleted,
         totalDeleted := (scanSessions cfg env env.sessionKeys).toDelete.length,
         durationMs := 0,
         errors := (scanSessions cfg env env.sessionKeys).errors },
       env.sessionKeys.filter
         (fun k => !(scanSessions cfg env env.sessionKeys).toDelete.contains k)⟩ := by
  simp [runCleanup, hen, hok, hlen]

/-- Unfolding of an enabled, non-reentrant `runCleanup` with a non-empty
selection: the failed-transaction branch. -/
theorem runCleanup_eq_deleteFail (cfg : SessionCleanupConfig) (env : CleanupEnv)
    (hen : cfg.enabled = true)
    (hlen : 0 < (scanSessions cfg env env.sessionKeys).toDelete.length)
    (hok : env.deleteOk = false) :
    runCleanup cfg env false =
      ⟨{ totalScanned := env.sessionKeys.length,
         secondaryDevicesDeleted := (scanSessions cfg env env.sessionKeys).secondaryDevicesDeleted,
         primaryDevicesDeleted := (scanSessions cfg env env.sessionKeys).primaryDevicesDeleted,
         lidOrphansDeleted := (scanSessions cfg env env.sessionKeys).lidOrphansDeleted,
         totalDeleted := 0,
         durationMs := 0,
         errors := (scanSessions cfg env env.sessionKeys).errors + 1 },
       env.sessionKeys⟩ := by
  simp [runCleanup, hen, hok, hlen]

/-- **C6.** `runCleanup` deletes all selected session keys in one atomic
store transaction: when the transaction commits, every selected key is
gone from the store, every unselected key remains, and `totalDeleted` is
the full selection size; when the transaction fails, `errors` is one more
than the scan's per-record errors, `totalDeleted` is 0, and every session
key — targeted or not — remains intact (no partial deletion). -/
theorem runCleanup_atomic (cfg : SessionCleanupConfig) (env : CleanupEnv)
    (hen : cfg.enabled = true)
    (hne : cleanupSelected cfg env ≠ []) :
    (env.deleteOk = true →
      (∀ k ∈ cleanupSelected cfg env, k ∉ (runCleanup cfg env false).sessionKeys)
      ∧ (∀ k ∈ env.sessionKeys, k ∉ cleanupSelected cfg env →
          k ∈ (runCleanup cfg env false).sessionKeys)
      ∧ (runCleanup cfg env false).stats.totalDeleted = (cleanupSelected cfg env).length)
    ∧ (env.deleteOk = false →
      (runCleanup cfg env false).stats.errors
          = (scanSessions cfg env env.sessionKeys).errors + 1
      ∧ (runCleanup cfg env false).stats.totalDeleted = 0
      ∧ (runCleanup cfg env false).sessionKeys = env.sessionKeys) := by
  have hlen : 0 < (scanSessions cfg env env.sessionKeys).toDelete.length :=
    List.length_pos.mpr hne
  constructor
  · intro hok
    rw [runCleanup_eq_deleteOk cfg env hen hlen hok]
    refine ⟨?_, ?_, rfl⟩
    · intro k hk
      simp [List.mem_filter]
      intro _
      exact hk
    · intro k hk hnk
      simp [List.mem_filter]
      exact ⟨hk, hnk⟩
  · intro hok
    rw [runCleanup_eq_deleteFail cfg env hen hlen hok]
    exact ⟨rfl, rfl, rfl⟩

/-- Witness for C6: one orphan selected; a failed transaction keeps the
store intact with `errors = 1`, a successful one empties it. -/
theorem runCleanup_atomic_witness :
    ((runCleanup testCleanupConfig
        ⟨["123456789_2.0"], fun _ => none, fun _ => none, 1000, false⟩ false).stats.errors = 1
      ∧ (runCleanup testCleanupConfig
        ⟨["123456789_2.0"], fun _ => none, fun _ => none, 1000, false⟩ false).sessionKeys
        = ["123456789_2.0"])
    ∧ "123456789_2.0" ∉ (runCleanup testCleanupConfig
        ⟨["123456789_2.0"], fun _ => none, fun _ => none, 1000, true⟩ false).sessionKeys := by
  constructor
  · have h := (runCleanup_atomic testCleanupConfig
      ⟨["123456789_2.0"], fun _ => none, fun _ => none, 1000, false⟩ rfl (by decide)).2 rfl
    exact ⟨by rw [h.1]; decide, h.2.2⟩
  · exact (runCleanup_atomic testCleanupConfig
      ⟨["123456789_2.0"], fun _ => none, fun _ => none, 1000, true⟩ rfl (by decide)).1 rfl
      |>.1 "123456789_2.0" (by decide)

/-- **C9.** For every completed `runCleanup` whose deletion transaction
succeeds and whose scan hits no per-record errors, the returned statistics
satisfy `totalDeleted = lidOrphansDeleted + secondaryDevicesDeleted +
primaryDevicesDeleted` and `totalDeleted ≤ totalScanned`; when the
deletion transaction fails, `totalDeleted` is 0 even though the three
per-category counters may be non-zero (see the witness). -/
theorem runCleanup_stats_consistent (cfg : SessionCleanupConfig) (env : CleanupEnv)
    (hen : cfg.enabled = true)
    (_herr : (scanSessions cfg env env.sessionKeys).errors = 0) :
    (env.deleteOk = true →
      (runCleanup cfg env false).stats.totalDeleted
        = (runCleanup cfg env false).stats.lidOrphansDeleted
          + (runCleanup cfg env false).stats.secondaryDevicesDeleted
          + (runCleanup cfg env false).stats.primaryDevicesDeleted
      ∧ (runCleanup cfg env false).stats.totalDeleted
          ≤ (runCleanup cfg env false).stats.totalScanned)
    ∧ (env.deleteOk = false →
      (runCleanup cfg env false).stats.totalDeleted = 0) := by
  have hsplit := scanSessions_count_split cfg env env.sessionKeys
  have hle : (scanSessions cfg env env.sessionKeys).toDelete.length
      ≤ env.sessionKeys.length := cleanupSelected_length_le cfg env
  by_cases hlen : 0 < (scanSessions cfg env env.sessionKeys).toDelete.length
  · constructor
    · intro hok
      rw [runCleanup_eq_deleteOk cfg env hen hlen hok]
      refine ⟨?_, ?_⟩
      · show (scanSessions cfg env env.sessionKeys).toDelete.length
          = (scanSessions cfg env env.sessionKeys).lidOrphansDeleted
            + (scanSessions cfg env env.sessionKeys).secondaryDevicesDeleted
            + (scanSessions cfg env env.sessionKeys).primaryDevicesDeleted
        omega
      · exact hle
    · intro hok
      rw [runCleanup_eq_deleteFail cfg env hen hlen hok]
  · have hnil : (scanSessions cfg env env.sessionKeys).toDelete.length = 0 := by omega
    have hrun : runCleanup cfg env false =
        ⟨{ totalScanned := env.sessionKeys.length,
           secondaryDevicesDeleted := (scanSessions cfg env env.sessionKeys).secondaryDevicesDeleted,
           primaryDevicesDeleted := (scanSessions cfg env env.sessionKeys).primaryDevicesDeleted,
           lidOrphansDeleted := (scanSessions cfg env env.sessionKeys).lidOrphansDeleted,
           totalDeleted := 0,
           durationMs := 0,
           errors := (scanSessions cfg env env.sessionKeys).errors },
         env.sessionKeys⟩ := by
      simp [runCleanup, hen, hnil]
    rw [hrun]
    refine ⟨fun _ => ⟨?_, ?_⟩, fun _ => rfl⟩
    · show (0 : Nat)
        = (scanSessions cfg env env.sessionKeys).lidOrphansDeleted
          + (scanSessions cfg env env.sessionKeys).secondaryDevicesDeleted
          + (scanSessions cfg env env.sessionKeys).primaryDevicesDeleted
      omega
    · show (0 : Nat) ≤ env.sessionKeys.length
      omega

/-- Witness for C9: a run with one orphan and a successful transaction has
`totalDeleted = 1 = 1 + 0 + 0 ≤ 1`; the same run with a failed transaction
has `totalDeleted = 0` while `lidOrphansDeleted = 1`. -/
theorem runCleanup_stats_consistent_witness :
    ((runCleanup testCleanupConfig
        ⟨["123456789_2.0"], fun _ => none, fun _ => none, 1000, true⟩ false).stats.totalDeleted
      = (runCleanup testCleanupConfig
        ⟨["123456789_2.0"], fun _ => none, fun _ => none, 1000, true⟩ false).stats.lidOrphansDeleted
        + (runCleanup testCleanupConfig
          ⟨["123456789_2.0"], fun _ => none, fun _ => none, 1000, true⟩ false).stats.secondaryDevicesDeleted
        + (runCleanup testCleanupConfig
          ⟨["123456789_2.0"], fun _ => none, fun _ => none, 1000, true⟩ false).stats.primaryDevicesDeleted)
    ∧ (runCleanup testCleanupConfig
        ⟨["123456789_2.0"], fun _ => none, fun _ => none, 1000, false⟩ false).stats.totalDeleted = 0
    ∧ (runCleanup testCleanupConfig
        ⟨["123456789_2.0"], fun _ => none, fun _ => none, 1000, false⟩ false).stats.lidOrphansDeleted = 1 := by
  refine ⟨?_, ?_, by decide⟩
  · exact ((runCleanup_stats_consistent testCleanupConfig
      ⟨["123456789_2.0"], fun _ => none, fun _ => none, 1000, true⟩ rfl (by decide)).1 rfl).1
  · exact (runCleanup_stats_consistent testCleanupConfig
      ⟨["123456789_2.0"], fun _ => none, fun _ => none, 1000, false⟩ rfl (by decide)).2 rfl

/-- Reading back the key just written by one `storeSet`. -/
theorem storeGet_storeSet_self (k : String) (v : SessionActivityMetadata)
    (ps : List (String × SessionActivityMetadata)) :
    storeGet k (storeSet k v ps) = some v := by
  induction ps with
  | nil => simp [storeSet, storeGet]
  | cons e rest ih =>
    obtain ⟨k2, v2⟩ := e
    by_cases h : k2 = k
    · simp [storeSet, storeGet, h]
    · simp [storeSet, storeGet, h, ih]

/-- A `storeSet` leaves every other key unchanged. -/
theorem storeGet_storeSet_other (k k2 : String) (v : SessionActivityMetadata)
    (ps : List (String × SessionActivityMetadata)) (h : k ≠ k2) :
    storeGet k (storeSet k2 v ps) = storeGet k ps := by
  induction ps with
  | nil => simp [storeSet, storeGet, Ne.symm h]
  | cons e rest ih =>
    obtain ⟨ke, ve⟩ := e
    by_cases he : ke = k2
    · subst he
      simp [storeSet, storeGet, Ne.symm h]
    · simp [storeSet, storeGet, he, ih]

/-- A flushed batch leaves keys outside the buffer's namespace image
unchanged. -/
theorem storeGet_flushUpdates_other (cache : List (String × Nat))
    (ps : List (String × SessionActivityMetadata)) (k : String)
    (h : ∀ jid ∈ cache.map Prod.fst, k ≠ "session-activity:" ++ jid) :
    storeGet k (flushUpdates cache ps) = storeGet k ps := by
  induction cache generalizing ps with
  | nil => rfl
  | cons e rest ih =>
    simp only [flushUpdates]
    rw [ih _ (fun jid hj => h jid (by simp [hj]))]
    exact storeGet_storeSet_other _ _ _ _ (h e.1 (by simp))

/-- Appending the namespace is injective in the JID. -/
theorem sessionActivityKey_inj (a b : String)
    (h : "session-activity:" ++ a = "session-activity:" ++ b) : a = b := by
  have hd : ("session-activity:" ++ a).data = ("session-activity:" ++ b).data := by
    rw [h]
  simp only [String.data_append] at hd
  have := List.append_cancel_left hd
  exact String.ext this

/-- Every buffered entry is readable back from the flushed store under its
namespaced key (buffer keys unique, first binding authoritative). -/
theorem storeGet_flushUpdates_mem (cache : List (String × Nat))
    (ps : List (String × SessionActivityMetadata)) (jid : String) (ts : Nat)
    (hnd : (cache.map Prod.fst).Nodup)
    (hl : cache.lookup jid = some ts) :
    storeGet ("session-activity:" ++ jid) (flushUpdates cache ps)
      = some ⟨ts, some ts⟩ := by
  induction cache generalizing ps with
  | nil => simp [List.lookup] at hl
  | cons e rest ih =>
    obtain ⟨kj, vj⟩ := e
    simp only [List.map_cons, List.nodup_cons] at hnd
    by_cases he : jid = kj
    · subst he
      have hts : vj = ts := by simpa [List.lookup] using hl
      simp only [flushUpdates]
      rw [storeGet_flushUpdates_other _ _ _ ?_]
      · rw [hts]
        exact storeGet_storeSet_self _ _ _
      · intro j2 hj2 hcontra
        refine hnd.1 ?_
        rw [sessionActivityKey_inj _ _ hcontra]
        exact hj2
    · have hbe : (jid == kj) = false := beq_eq_false_iff_ne.mpr he
      have hl2 : rest.lookup jid = some ts := by
        simpa [List.lookup, hbe] using hl
      simp only [flushUpdates]
      exact ih _ hnd.2 hl2

/-- **C7.** On a dirty, non-empty buffer with tracking enabled, `flush()`
writes the entire in-memory buffer to the persistent store in a single
transaction — every buffered identity's timestamp is readable back under
its namespaced key, and every key outside the buffer's image is untouched
— and then clears the buffer and lowers the dirty flag; if the
transactional write fails, the buffer, the flag and the store are all left
exactly as they were, preserving every buffered entry for the next flush.
(`hnd`: buffer keys are unique, an invariant of the `Map`-backed cache.) -/
theorem flush_transactional (st : TrackerState)
    (ps : List (String × SessionActivityMetadata))
    (hd : st.isDirty = true) (hne : st.activityCache ≠ [])
    (hnd : (st.activityCache.map Prod.fst).Nodup) :
    (∀ jid ts, st.activityCache.lookup jid = some ts →
      storeGet ("session-activity:" ++ jid) (flush true st ps true).2
        = some ⟨ts, some ts⟩)
    ∧ (∀ k, (∀ jid ∈ st.activityCache.map Prod.fst, k ≠ "session-activity:" ++ jid) →
      storeGet k (flush true st ps true).2 = storeGet k ps)
    ∧ (flush true st ps true).1.activityCache = []
    ∧ (flush true st ps true).1.isDirty = false
    ∧ flush true st ps false = (st, ps) := by
  have hcond : (!(true : Bool) || !st.isDirty || (st.activityCache.length == 0)) = false := by
    simp [hd, hne]
  have hT : flush true st ps true =
      ({ st with isDirty := false, totalFlushes := st.totalFlushes + 1,
                 activityCache := [], cacheSize := 0 },
       flushUpdates st.activityCache ps) := by
    simp only [flush, hcond]
    simp
  have hF : flush true st ps false = (st, ps) := by
    simp only [flush, hcond]
    simp
  refine ⟨?_, ?_, ?_, ?_, hF⟩
  · intro jid ts hl
    rw [hT]
    exact storeGet_flushUpdates_mem _ _ _ _ hnd hl
  · intro k hk
    rw [hT]
    exact storeGet_flushUpdates_other _ _ _ hk
  · rw [hT]
  · rw [hT]

/-- Witness for C7: one buffered entry is persisted on success and fully
retained (state and store untouched) on a failed transaction. -/
theorem flush_transactional_witness :
    storeGet "session-activity:abc@lid"
      (flush true ⟨[("abc@lid", 5)], true, 1, 0, 1⟩ [("other", ⟨9, none⟩)] true).2
      = some ⟨5, some 5⟩
    ∧ flush true ⟨[("abc@lid", 5)], true, 1, 0, 1⟩ [("other", ⟨9, none⟩)] false
      = (⟨[("abc@lid", 5)], true, 1, 0, 1⟩, [("other", ⟨9, none⟩)]) := by
  have h := flush_transactional ⟨[("abc@lid", 5)], true, 1, 0, 1⟩ [("other", ⟨9, none⟩)]
    rfl (by decide) (by decide)
  exact ⟨h.1 "abc@lid" 5 (by decide), h.2.2.2.2⟩

/-- **C10.** When the activity tracker is configured disabled, every
public operation is a no-op at the interface: `recordActivity` changes no
state, `getLastActivity` returns absent and `getAllActivities` returns the
empty map even when the persistent store holds activity records, and
`flush` performs no store write and no state change. -/
theorem tracker_disabled_noop (st : TrackerState)
    (ps : List (String × SessionActivityMetadata)) (jid : String) (now : Nat)
    (commitOk : Bool) :
    recordActivity false st jid now = st
    ∧ getLastActivity false st ps jid = none
    ∧ getAllActivities false st ps = []
    ∧ flush false st ps commitOk = (st, ps) := by
  refine ⟨rfl, rfl, rfl, ?_⟩
  simp [flush]

/-- **C2.** For an inbound envelope whose decryption fails with a
corrupted-session error (e.g. a bad authentication tag — classified
corrupted and not as a missing-session-record), the pipeline performs
exactly one cipher call (no retry, no backoff), deletes the session
records for the sender's primary address and the bounded secondary device
index window 1–5 (plus the decoded device itself when above 5) under the
sender's domain, and reports the failing message as a stub —
`messageStubType = CIPHERTEXT` with the error message as parameter —
rather than dropping it. -/
theorem corrupted_session_recovery (e jid u : String) (dev : Option Nat)
    (hc : isCorruptedSessionError e = true)
    (hs : isSessionRecordError e = false)
    (hj : jidDecode jid = some (u, dev))
    (hu : u ≠ "") :
    (processEncMsg (fun _ => .error e) jid true).cipherCalls = 1
    ∧ (processEncMsg (fun _ => .error e) jid true).retryDelays = []
    ∧ (processEncMsg (fun _ => .error e) jid true).stubType = some CIPHERTEXT
    ∧ (processEncMsg (fun _ => .error e) jid true).stubParams = [e]
    ∧ (processEncMsg (fun _ => .error e) jid true).plaintext = none
    ∧ (processEncMsg (fun _ => .error e) jid true).deletedJids
        = (u ++ "@" ++ sessionResetDomain jid)
          :: ((List.range 5).map
                (fun i => u ++ ":" ++ Nat.repr (i + 1) ++ "@" ++ sessionResetDomain jid)
            ++ (match dev with
                | some d =>
                  if d > 5 then [u ++ ":" ++ Nat.repr d ++ "@" ++ sessionResetDomain jid]
                  else []
                | none => [])) := by
  have hu2 : (u == "") = false := beq_eq_false_iff_ne.mpr hu
  have hsr : shouldRetry e 1 = false := by simp [shouldRetry, hs, hc]
  simp [processEncMsg, retryRun, DECRYPTION_RETRY_OPTIONS_maxAttempts, runRetryFrom,
    hsr, hc, cleanupCorruptedSession, hj, hu2]
  cases dev <;> rfl

/-- Witness for C2: a `Bad MAC` failure against a PN sender. -/
theorem corrupted_session_recovery_witness :
    (processEncMsg (fun _ => .error "Bad MAC") "123@s.whatsapp.net" true).cipherCalls = 1
    ∧ (processEncMsg (fun _ => .error "Bad MAC") "123@s.whatsapp.net" true).stubParams
        = ["Bad MAC"]
    ∧ (processEncMsg (fun _ => .error "Bad MAC") "123@s.whatsapp.net" true).deletedJids
        = ("123" ++ "@" ++ sessionResetDomain "123@s.whatsapp.net")
          :: ((List.range 5).map
                (fun i => "123" ++ ":" ++ Nat.repr (i + 1) ++ "@"
                  ++ sessionResetDomain "123@s.whatsapp.net")
            ++ []) := by
  have h := corrupted_session_recovery "Bad MAC" "123@s.whatsapp.net" "123" none
    (by decide) (by decide) (by decide) (by decide)
  exact ⟨h.1, h.2.2.2.1, h.2.2.2.2.2⟩

/-- **C8.** A decryption attempt failing with a missing-session-record
error is retried with exponential backoff (nominal delays 200 ms then
400 ms) up to 3 cipher attempts in total — recovering if a later attempt
succeeds — whereas an error classified as corrupted-session is never
retried (a single cipher call, no backoff). -/
theorem decryption_retry_policy (e1 e2 : String) (v : Nat) (jid : String)
    (h1 : isSessionRecordError e1 = true)
    (h2c : isCorruptedSessionError e2 = true)
    (h2s : isSessionRecordError e2 = false) :
    ((processEncMsg (fun _ => .error e1) jid true).cipherCalls = 3
      ∧ (processEncMsg (fun _ => .error e1) jid true).retryDelays = [200, 400])
    ∧ ((processEncMsg (fun n => if n = 1 then .error e1 else .ok v) jid true).plaintext
          = some v
      ∧ (processEncMsg (fun n => if n = 1 then .error e1 else .ok v) jid true).cipherCalls = 2
      ∧ (processEncMsg (fun n => if n = 1 then .error e1 else .ok v) jid true).retryDelays
          = [200])
    ∧ ((processEncMsg (fun _ => .error e2) jid true).cipherCalls = 1
      ∧ (processEncMsg (fun _ => .error e2) jid true).retryDelays = []) := by
  have hr1 : shouldRetry e1 1 = true := by simp [shouldRetry, h1]
  have hr2 : shouldRetry e1 2 = true := by simp [shouldRetry, h1]
  have hr3 : shouldRetry e2 1 = false := by simp [shouldRetry, h2s, h2c]
  have hd1 : retryDelay 1 = 200 := by decide
  have hd2 : retryDelay 2 = 400 := by decide
  refine ⟨?_, ?_, ?_⟩
  · constructor <;>
      simp [processEncMsg, retryRun, DECRYPTION_RETRY_OPTIONS_maxAttempts, runRetryFrom,
        hr1, hr2, hd1, hd2]
  · refine ⟨?_, ?_, ?_⟩ <;>
      simp [processEncMsg, retryRun, DECRYPTION_RETRY_OPTIONS_maxAttempts, runRetryFrom,
        hr1, hd1]
  · constructor <;>
      simp [processEncMsg, retryRun, DECRYPTION_RETRY_OPTIONS_maxAttempts, runRetryFrom,
        hr3]

/-- Witness for C8: the literal `No session record` and `Bad MAC` errors. -/
theorem decryption_retry_policy_witness :
    (processEncMsg (fun _ => .error "No session record") "123@s.whatsapp.net" true).cipherCalls
      = 3
    ∧ (processEncMsg (fun _ => .error "No session record") "123@s.whatsapp.net" true).retryDelays
      = [200, 400]
    ∧ (processEncMsg (fun n => if n = 1 then .error "No session record" else .ok 42)
        "123@s.whatsapp.net" true).plaintext = some 42
    ∧ (processEncMsg (fun _ => .error "Bad MAC") "123@s.whatsapp.net" true).cipherCalls = 1 := by
  have h := decryption_retry_policy "No session record" "Bad MAC" 42 "123@s.whatsapp.net"
    (by decide) (by decide) (by decide)
  exact ⟨h.1.1, h.1.2, h.2.1.1, h.2.2.1⟩

/-- Filtering preserves an absent key. -/
theorem lookup_filter_of_none {β : Type} (l : List (Nat × β)) (p : Nat × β → Bool)
    (d : Nat) (h : l.lookup d = none) : (l.filter p).lookup d = none := by
  induction l with
  | nil => rfl
  | cons e rest ih =>
    obtain ⟨k, v⟩ := e
    by_cases hk : d = k
    · subst hk
      simp [List.lookup] at h
    · have hbe : (d == k) = false := beq_eq_false_iff_ne.mpr hk
      simp only [List.lookup, hbe] at h
      by_cases hp : p (k, v)
      · simp [List.filter, hp, List.lookup, hbe, ih h]
      · simp [List.filter, hp, ih h]

/-- Dropping every entry whose key is in `ds` makes each `d ∈ ds`
unfindable. -/
theorem lookup_filter_not_mem {β : Type} (l : List (Nat × β)) (ds : List Nat)
    (d : Nat) (h : d ∈ ds) :
    (l.filter (fun e => !ds.contains e.1)).lookup d = none := by
  induction l with
  | nil => rfl
  | cons e rest ih =>
    obtain ⟨k, v⟩ := e
    rw [List.filter_cons]
    by_cases hk : ds.contains k
    · rw [if_neg (by simp; exact List.elem_iff.mp hk)]
      exact ih
    · rw [if_pos (by simp; exact fun hm => hk (List.elem_iff.mpr hm))]
      have hdk : (d == k) = false := by
        refine beq_eq_false_iff_ne.mpr ?_
        intro hh
        subst hh
        exact hk (List.elem_iff.mpr h)
      simp only [List.lookup, hdk]
      exact ih

/-- A key absent from the left list is looked up in the right one. -/
theorem lookup_append_left_none {β : Type} (l1 l2 : List (Nat × β)) (d : Nat)
    (h : l1.lookup d = none) : (l1 ++ l2).lookup d = l2.lookup d := by
  induction l1 with
  | nil => rfl
  | cons e rest ih =>
    obtain ⟨k, v⟩ := e
    by_cases hk : d = k
    · subst hk
      simp [List.lookup] at h
    · have hbe : (d == k) = false := beq_eq_false_iff_ne.mpr hk
      simp only [List.lookup, hbe] at h
      simp only [List.cons_append, List.lookup, hbe]
      exact ih h

/-- Re-keying a list to a constant value: lookup of a present key. -/
theorem lookup_map_const_of_mem {β γ : Type} (l : List (Nat × β)) (c : γ) (d : Nat)
    (h : d ∈ l.map Prod.fst) :
    (l.map (fun e => (e.1, c))).lookup d = some c := by
  induction l with
  | nil => simp at h
  | cons e rest ih =>
    obtain ⟨k, v⟩ := e
    by_cases hk : d = k
    · subst hk
      simp [List.lookup]
    · have hbe : (d == k) = false := beq_eq_false_iff_ne.mpr hk
      simp only [List.map_cons] at h
      have h2 : d ∈ rest.map Prod.fst := by
        rcases List.mem_cons.mp h with h | h
        · exact absurd h hk
        · exact h
      simp only [List.map_cons, List.lookup, hbe]
      exact ih h2

/-- Re-keying a list to a constant value: lookup of an absent key. -/
theorem lookup_map_const_of_not_mem {β γ : Type} (l : List (Nat × β)) (c : γ) (d : Nat)
    (h : d ∉ l.map Prod.fst) :
    (l.map (fun e => (e.1, c))).lookup d = none := by
  induction l with
  | nil => rfl
  | cons e rest ih =>
    obtain ⟨k, v⟩ := e
    simp only [List.map_cons, List.mem_cons] at h
    push_neg at h
    have hbe : (d == k) = false := beq_eq_false_iff_ne.mpr h.1
    simp only [List.map_cons, List.lookup, hbe]
    exact ih h.2

/-- A device classified `skippedNoSession` has no phone-number record. -/
theorem classify_noSession (s : MigState) (now : Int) (d : Nat)
    (h : classifyDevice s now d = .skippedNoSession) :
    s.pnSessions.lookup d = none := by
  unfold classifyDevice at h
  split at h
  · split at h
    · simp at h
    · split at h
      · simp at h
      · assumption
  · split at h
    · simp at h
    · assumption

/-- A device classified `skippedLedger` has an unexpired ledger entry. -/
theorem classify_ledger (s : MigState) (now : Int) (d : Nat)
    (h : classifyDevice s now d = .skippedLedger) :
    ∃ t, s.ledger.lookup d = some t ∧ now - t < MIGRATION_LEDGER_GRACE_MS := by
  unfold classifyDevice at h
  split at h
  · rename_i t ht
    split at h
    · rename_i hg
      exact ⟨t, ht, hg⟩
    · split at h <;> simp at h
  · split at h <;> simp at h

/-- A device is staged for migration iff it is listed and classified
`migrate`. -/
theorem mem_migrated_iff (s : MigState) (now : Int) (d : Nat) :
    d ∈ (migratedDevices s now).map Prod.fst ↔
      (d ∈ s.deviceList ∧ ∃ r, classifyDevice s now d = .migrate r) := by
  simp only [migratedDevices, List.map_filterMap, List.mem_filterMap]
  constructor
  · rintro ⟨a, ha, heq⟩
    cases hcd : classifyDevice s now a with
    | skippedLedger => rw [hcd] at heq; exact absurd heq (by simp)
    | skippedNoSession => rw [hcd] at heq; exact absurd heq (by simp)
    | migrate r =>
      rw [hcd] at heq
      simp only [Option.map_some] at heq
      have had : a = d := by simpa using heq
      subst had
      exact ⟨ha, r, hcd⟩
  · rintro ⟨hd, r, hcd⟩
    exact ⟨d, hd, by simp [hcd]⟩

/-- A key found in the left list is found in the append. -/
theorem lookup_append_left_some {β : Type} (l1 l2 : List (Nat × β)) (d : Nat) (c : β)
    (h : l1.lookup d = some c) : (l1 ++ l2).lookup d = some c := by
  induction l1 with
  | nil => simp [List.lookup] at h
  | cons e rest ih =>
    obtain ⟨k, v⟩ := e
    by_cases hk : d = k
    · subst hk
      simp only [List.lookup, beq_self_eq_true] at h ⊢
      exact h
    · have hbe : (d == k) = false := beq_eq_false_iff_ne.mpr hk
      simp only [List.lookup, hbe] at h
      simp only [List.cons_append, List.lookup, hbe]
      exact ih h

/-- **C3.** (Spec-modelled: the migrator implementation is not in this
snapshot.)  If `migrateSessions(pn, lid)` succeeds, a second call with the
same arguments (a duplicate trigger, at the same instant) succeeds with
`migrated = 0`, and after either call no listed device of the identity has
session records present under both the phone-number and the long-lived-id
keyspace simultaneously.  `hinv` is the reachable-state invariant of the
ledger (spec sections 3 and 4.2 step 7): an unexpired ledger entry means
that device's migration already committed, so its phone-number key is
already deleted. -/
theorem migrateSessions_idempotent (s : MigState) (now : Int)
    (r1 : MigrationResult) (s1 : MigState)
    (hinv : ∀ d t, s.ledger.lookup d = some t → now - t < MIGRATION_LEDGER_GRACE_MS →
      s.pnSessions.lookup d = none)
    (h1 : migrateSessions s now true = some (r1, s1)) :
    (∃ r2 s2, migrateSessions s1 now true = some (r2, s2) ∧ r2.migrated = 0
      ∧ ∀ d ∈ s2.deviceList,
          ¬(s2.pnSessions.lookup d ≠ none ∧ s2.lidSessions.lookup d ≠ none))
    ∧ ∀ d ∈ s1.deviceList,
        ¬(s1.pnSessions.lookup d ≠ none ∧ s1.lidSessions.lookup d ≠ none) := by
  have h1' : migrateSessions s now true =
      some (⟨(migratedDevices s now).length,
             s.deviceList.length - (migratedDevices s now).length,
             s.deviceList.length⟩,
            ⟨s.deviceList,
             s.pnSessions.filter
               (fun e => !((migratedDevices s now).map Prod.fst).contains e.1),
             migratedDevices s now ++ s.lidSessions.filter
               (fun e => !((migratedDevices s now).map Prod.fst).contains e.1),
             (migratedDevices s now).map (fun e => (e.1, now)) ++ s.ledger⟩) := rfl
  have hs1 : s1 =
      ⟨s.deviceList,
       s.pnSessions.filter
         (fun e => !((migratedDevices s now).map Prod.fst).contains e.1),
       migratedDevices s now ++ s.lidSessions.filter
         (fun e => !((migratedDevices s now).map Prod.fst).contains e.1),
       (migratedDevices s now).map (fun e => (e.1, now)) ++ s.ledger⟩ :=
    (Prod.ext_iff.mp (Option.some.inj (h1.symm.trans h1'))).2
  subst hs1
  -- After the first call, no listed device still has a phone-number record.
  have hpn1 : ∀ d ∈ s.deviceList,
      (s.pnSessions.filter
        (fun e => !((migratedDevices s now).map Prod.fst).contains e.1)).lookup d
        = none := by
    intro d hd
    cases hcd : classifyDevice s now d with
    | migrate r =>
      exact lookup_filter_not_mem _ _ _ ((mem_migrated_iff s now d).mpr ⟨hd, r, hcd⟩)
    | skippedNoSession =>
      exact lookup_filter_of_none _ _ _ (classify_noSession s now d hcd)
    | skippedLedger =>
      obtain ⟨t, ht, hg⟩ := classify_ledger s now d hcd
      exact lookup_filter_of_none _ _ _ (hinv d t ht hg)
  -- The second call stages nothing.
  have hcls : ∀ d ∈ s.deviceList, ∀ r,
      classifyDevice
        ⟨s.deviceList,
         s.pnSessions.filter
           (fun e => !((migratedDevices s now).map Prod.fst).contains e.1),
         migratedDevices s now ++ s.lidSessions.filter
           (fun e => !((migratedDevices s now).map Prod.fst).contains e.1),
         (migratedDevices s now).map (fun e => (e.1, now)) ++ s.ledger⟩ now d
        ≠ .migrate r := by
    intro d hd r hcd2
    by_cases hmem : d ∈ (migratedDevices s now).map Prod.fst
    · have hl : ((migratedDevices s now).map (fun e => (e.1, now)) ++ s.ledger).lookup d
          = some now :=
        lookup_append_left_some _ _ _ _ (lookup_map_const_of_mem _ now d hmem)
      have hg : now - now < MIGRATION_LEDGER_GRACE_MS := by
        show now - now < 7 * 24 * 60 * 60 * 1000
        omega
      unfold classifyDevice at hcd2
      rw [hl] at hcd2
      dsimp only at hcd2
      rw [if_pos hg] at hcd2
      simp at hcd2
    · have hl : ((migratedDevices s now).map (fun e => (e.1, now)) ++ s.ledger).lookup d
          = s.ledger.lookup d :=
        lookup_append_left_none _ _ _ (lookup_map_const_of_not_mem _ now d hmem)
      have hpn : (s.pnSessions.filter
          (fun e => !((migratedDevices s now).map Prod.fst).contains e.1)).lookup d
          = none := hpn1 d hd
      unfold classifyDevice at hcd2
      rw [hl] at hcd2
      cases hld : s.ledger.lookup d with
      | some t =>
        rw [hld] at hcd2
        dsimp only at hcd2
        by_cases hg : now - t < MIGRATION_LEDGER_GRACE_MS
        · rw [if_pos hg] at hcd2
          simp at hcd2
        · rw [if_neg hg, hpn] at hcd2
          simp at hcd2
      | none =>
        rw [hld] at hcd2
        dsimp only at hcd2
        rw [hpn] at hcd2
        simp at hcd2
  have hstaged2 : migratedDevices
      ⟨s.deviceList,
       s.pnSessions.filter
         (fun e => !((migratedDevices s now).map Prod.fst).contains e.1),
       migratedDevices s now ++ s.lidSessions.filter
         (fun e => !((migratedDevices s now).map Prod.fst).contains e.1),
       (migratedDevices s now).map (fun e => (e.1, now)) ++ s.ledger⟩ now = [] := by
    rw [migratedDevices]
    refine List.filterMap_eq_nil_iff.mpr ?_
    intro d hd
    cases hcd : classifyDevice _ now d with
    | migrate r => exact absurd hcd (hcls d hd r)
    | skippedLedger => simp [hcd]
    | skippedNoSession => simp [hcd]
  refine ⟨⟨_, _, rfl, ?_, ?_⟩, ?_⟩
  · show (migratedDevices _ now).length = 0
    rw [hstaged2]
    rfl
  · intro d hd
    rintro ⟨hpn', -⟩
    refine hpn' (lookup_filter_of_none _ _ _ (hpn1 d hd))
  · intro d hd
    rintro ⟨hpn', -⟩
    exact hpn' (hpn1 d hd)

/-- Witness for C3: the spec's two-device scenario (`[0,5]`, both records
migrated by the first call) — the duplicate second call migrates 0. -/
theorem migrateSessions_idempotent_witness :
    (migrateSessions ⟨[0, 5], [], [(0, 10), (5, 11)], [(0, 1000), (5, 1000)]⟩ 1000 true).map
      (fun p => p.1.migrated) = some 0 := by
  obtain ⟨⟨r2, s2, h2, hm, -⟩, -⟩ := migrateSessions_idempotent
    ⟨[0, 5], [(0, 10), (5, 11)], [], []⟩ 1000 ⟨2, 0, 2⟩
    ⟨[0, 5], [], [(0, 10), (5, 11)], [(0, 1000), (5, 1000)]⟩
    (by intro d t ht _; simp [List.lookup] at ht)
    (by decide)
  rw [h2]
  simp [hm]
